import Mathlib

/-!
Shallow embedding of the Midtrans payment-notification webhook handler
(`server.js`) of the `payment-notification` service.

The handler under verification is the `POST /payment-notification` route:
it destructures the JSON body, checks that the four required fields are
truthy, verifies a SHA-512 signature, classifies `transaction_status`
(with `fraud_status` for the `capture` case) and issues up to three
database calls against the `payments` and `quiz_results` tables.

Modelling decisions:
- JSON field values are `JsValue` (string, integer number, boolean, null);
  an absent field is `Option.none` (JavaScript `undefined` after
  destructuring).  JavaScript truthiness and `+` / `===` semantics are
  embedded as `truthy`, `jsAdd` and `strictEqStr`.
- The Node `crypto` SHA-512 hex digest is an external library call, so it
  is a parameter `hash : String → Except String String` of the
  environment; `Except.error` models the library throwing (caught by
  the `try/catch` inside `verifySignature`).
- The Supabase data store is a concrete state (`Database`); its fallible
  network calls are modelled by injected failure flags (`Failures`).
  `.single()` on the payment lookup errors unless exactly one row matches.
- The handler returns an `Outcome` (the HTTP status/body class), the new
  database state and the trace of external calls (`Event`), so that
  claims about "no database access" or "signature verification not
  performed" are about the trace.
-/

namespace PaymentNotification

/-- A JSON value as seen by the handler after `express.json` parsing
(numbers restricted to integers, which is all the claims need). -/
inductive JsValue where
  | str (s : String)
  | num (n : Int)
  | boolean (b : Bool)
  | null
deriving DecidableEq, Repr

/-- JavaScript truthiness of a value: `""`, `0`, `false` and `null` are
falsy, everything else here is truthy. -/
def truthy : JsValue → Bool
  | .str s => !(s == "")
  | .num n => !(n == 0)
  | .boolean b => b
  | .null => false

/-- Truthiness of a possibly-absent field: an absent field (`undefined`)
is falsy. -/
def truthyOpt : Option JsValue → Bool
  | none => false
  | some v => truthy v

/-- JavaScript string coercion of a value (as used by string
concatenation). -/
def jsToString : JsValue → String
  | .str s => s
  | .num n => toString n
  | .boolean b => if b then "true" else "false"
  | .null => "null"

/-- JavaScript numeric coercion for the non-string operands of `+`. -/
def toNum : JsValue → Int
  | .str _ => 0
  | .num n => n
  | .boolean b => if b then 1 else 0
  | .null => 0

/-- JavaScript binary `+`: string concatenation when either operand is a
string, numeric addition otherwise. -/
def jsAdd (a b : JsValue) : JsValue :=
  match a, b with
  | .str s, _ => .str (s ++ jsToString b)
  | _, .str t => .str (jsToString a ++ t)
  | _, _ => .num (toNum a + toNum b)

/-- JavaScript strict equality `v === s` between a value and a string:
true only when `v` is that very string. -/
def strictEqStr (v : JsValue) (s : String) : Bool :=
  match v with
  | .str t => t == s
  | _ => false

/-- Strict equality against a string for a possibly-absent field:
`undefined === s` is false. -/
def strictEqStrOpt (v : Option JsValue) (s : String) : Bool :=
  match v with
  | none => false
  | some w => strictEqStr w s

/-- Process-wide configuration and external collaborators: the SHA-512
hex-digest function of the `crypto` library (errors model a throw), the
`MIDTRANS_SERVER_KEY` secret, and the current time used for the
completion timestamp (`new Date().toISOString()`). -/
structure Env where
  hash : String → Except String String
  serverKey : String
  now : String

/-- The concatenated input `orderId + statusCode + grossAmount + key`
fed to the hash, with JavaScript `+` semantics (left associated). -/
def sigInput (env : Env) (orderId statusCode grossAmount : JsValue) : String :=
  jsToString (jsAdd (jsAdd (jsAdd orderId statusCode) grossAmount) (.str env.serverKey))

/-- The `verifySignature` function of `server.js`: hex SHA-512 of the
concatenation compared to the received signature with `===`; any
exception from hashing is caught and yields `false`. -/
def verifySignature (env : Env) (orderId statusCode grossAmount signature : JsValue) : Bool :=
  match env.hash (sigInput env orderId statusCode grossAmount) with
  | .ok h => strictEqStr signature h
  | .error _ => false

/-- A row of the `payments` table (the columns the handler touches). -/
structure Payment where
  transaction_id : String
  quiz_result_id : String
  user_id : String
  status : String
  payment_date : Option String
deriving DecidableEq, Repr

/-- A row of the `quiz_results` table (the columns the handler touches). -/
structure QuizResult where
  id : String
  is_premium : Bool
deriving DecidableEq, Repr

/-- The external data store: the two tables the handler reads/mutates. -/
structure Database where
  payments : List Payment
  quiz_results : List QuizResult
deriving DecidableEq, Repr

/-- Lookup of a payment row by transaction id with `.single()` semantics:
succeeds only when exactly one row matches. -/
def findPayment (db : Database) (tid : String) : Option Payment :=
  match db.payments.filter (fun p => p.transaction_id == tid) with
  | [p] => some p
  | _ => none

/-- The quiz-result update issued on the successful path: sets the
premium flag to true on every row whose id matches. -/
def setQuizPremium (db : Database) (qid : String) : Database :=
  { db with quiz_results := db.quiz_results.map fun q =>
      if q.id == qid then { q with is_premium := true } else q }

/-- The payment update: sets the status (and, when `date` is given, the
`payment_date`) on every row whose transaction id matches. -/
def setPaymentStatus (db : Database) (tid st : String) (date : Option String) : Database :=
  { db with payments := db.payments.map fun p =>
      if p.transaction_id == tid then
        { p with status := st,
                 payment_date := match date with
                   | some d => some d
                   | none => p.payment_date }
      else p }

/-- Injected failure flags for the three fallible store calls (network
or database errors reported by the Supabase client). -/
structure Failures where
  findPayment : Bool
  quizUpdate : Bool
  paymentUpdate : Bool
deriving DecidableEq, Repr

/-- Trace of the external calls made by the handler: one signature verification
and the three kinds of database operation. -/
inductive Event where
  | verifySig (input : String)
  | dbFindPayment (tid : String)
  | dbUpdateQuizPremium (id : String) (value : Bool)
  | dbUpdatePaymentStatus (tid st : String) (withDate : Bool)
deriving DecidableEq, Repr

/-- The outcome classes of the handler (HTTP status and body class). -/
inductive Outcome where
  | accepted
  | bad_request
  | invalid_signature
  | not_found
  | update_failed
deriving DecidableEq, Repr

/-- The inbound notification body as destructured by the handler; a
missing field is `none`. -/
structure Notification where
  transaction_status : Option JsValue
  transaction_id : Option JsValue
  order_id : Option JsValue
  gross_amount : Option JsValue
  signature_key : Option JsValue
  fraud_status : Option JsValue
  status_code : Option JsValue
  payment_type : Option JsValue
deriving DecidableEq, Repr

/-- Result of one handler run: outcome, final database state, and the
trace of external calls in order. -/
structure Result where
  outcome : Outcome
  db : Database
  events : List Event
deriving DecidableEq, Repr

/-- The `order_id` value as used past the presence check (the default is
never reached there, since `none` is falsy). -/
def reqOrderId (n : Notification) : JsValue := n.order_id.getD .null

/-- The `status_code` value as used past the presence check. -/
def reqStatusCode (n : Notification) : JsValue := n.status_code.getD .null

/-- The `gross_amount` value as used past the presence check. -/
def reqGrossAmount (n : Notification) : JsValue := n.gross_amount.getD .null

/-- The `signature_key` value as used past the presence check. -/
def reqSignatureKey (n : Notification) : JsValue := n.signature_key.getD .null

/-- The signature check the handler performs on a notification. -/
def verifyOf (env : Env) (n : Notification) : Bool :=
  verifySignature env (reqOrderId n) (reqStatusCode n) (reqGrossAmount n) (reqSignatureKey n)

/-- The string the handler matches against the `transaction_id` column
(`order_id` coerced to a string by the store client). -/
def oidOf (n : Notification) : String := jsToString (reqOrderId n)

/-- The trace event of the signature verification call. -/
def vEventOf (env : Env) (n : Notification) : Event :=
  .verifySig (sigInput env (reqOrderId n) (reqStatusCode n) (reqGrossAmount n))

/-- The `isSuccessful` classification of `server.js`:
`(capture && fraud accept) || settlement`. -/
def isSuccessful (transaction_status fraud_status : Option JsValue) : Bool :=
  (strictEqStrOpt transaction_status "capture" && strictEqStrOpt fraud_status "accept")
  || strictEqStrOpt transaction_status "settlement"

/-- All four required fields present and truthy (the complement of the
missing-field guard of the handler). -/
def hasRequired (n : Notification) : Bool :=
  truthyOpt n.order_id && truthyOpt n.status_code
    && truthyOpt n.gross_amount && truthyOpt n.signature_key

/-- The `POST /payment-notification` handler of `server.js`, as a state
transition on the database, parameterised by the environment and the
injected store failures. -/
def processNotification (env : Env) (fail : Failures) (db : Database) (n : Notification) :
    Result :=
  if !(truthyOpt n.order_id) || !(truthyOpt n.status_code)
      || !(truthyOpt n.gross_amount) || !(truthyOpt n.signature_key) then
    ⟨.bad_request, db, []⟩
  else if !(verifyOf env n) then
    ⟨.invalid_signature, db, [vEventOf env n]⟩
  else if isSuccessful n.transaction_status n.fraud_status then
    match (if fail.findPayment then none else findPayment db (oidOf n)) with
    | none => ⟨.not_found, db, [vEventOf env n, .dbFindPayment (oidOf n)]⟩
    | some p =>
      if fail.quizUpdate then
        ⟨.update_failed, db,
          [vEventOf env n, .dbFindPayment (oidOf n),
           .dbUpdateQuizPremium p.quiz_result_id true]⟩
      else if fail.paymentUpdate then
        ⟨.accepted, setQuizPremium db p.quiz_result_id,
          [vEventOf env n, .dbFindPayment (oidOf n),
           .dbUpdateQuizPremium p.quiz_result_id true,
           .dbUpdatePaymentStatus (oidOf n) "completed" true]⟩
      else
        ⟨.accepted,
          setPaymentStatus (setQuizPremium db p.quiz_result_id) (oidOf n) "completed"
            (some env.now),
          [vEventOf env n, .dbFindPayment (oidOf n),
           .dbUpdateQuizPremium p.quiz_result_id true,
           .dbUpdatePaymentStatus (oidOf n) "completed" true]⟩
  else if strictEqStrOpt n.transaction_status "cancel"
      || strictEqStrOpt n.transaction_status "deny"
      || strictEqStrOpt n.transaction_status "expire" then
    if fail.paymentUpdate then
      ⟨.accepted, db, [vEventOf env n, .dbUpdatePaymentStatus (oidOf n) "failed" false]⟩
    else
      ⟨.accepted, setPaymentStatus db (oidOf n) "failed" none,
        [vEventOf env n, .dbUpdatePaymentStatus (oidOf n) "failed" false]⟩
  else if strictEqStrOpt n.transaction_status "pending" then
    if fail.paymentUpdate then
      ⟨.accepted, db, [vEventOf env n, .dbUpdatePaymentStatus (oidOf n) "pending" false]⟩
    else
      ⟨.accepted, setPaymentStatus db (oidOf n) "pending" none,
        [vEventOf env n, .dbUpdatePaymentStatus (oidOf n) "pending" false]⟩
  else
    ⟨.accepted, db, [vEventOf env n]⟩

/-- One quiz-result row evolving admissibly: same identity, and the
premium flag either unchanged or set to true. -/
def quizEvolves (q q' : QuizResult) : Bool :=
  q'.id == q.id && (q'.is_premium == q.is_premium || q'.is_premium)

/-- The quiz-result table evolving admissibly row by row: the premium
flag only ever goes from false/unset to true and never reverts. -/
def premiumMonotone (db db' : Database) : Bool :=
  db.quiz_results.length == db'.quiz_results.length
    && (db.quiz_results.zip db'.quiz_results).all fun x => quizEvolves x.1 x.2


/-!  Concrete fixtures used to instantiate the claim theorems: an
environment whose hash library returns the constant digest "sig", a store
with one pending payment for order "ord1" tied to quiz result "qr1", and
a family of notifications exercising each path. -/

/-- Environment fixture: the hash returns the constant digest "sig". -/
def envW : Env := ⟨fun _ => Except.ok "sig", "key", "2025-01-01T00:00:00Z"⟩

/-- Payment fixture: a pending payment for order "ord1". -/
def pW : Payment := ⟨"ord1", "qr1", "u1", "pending", none⟩

/-- Database fixture: one payment and one non-premium quiz result. -/
def dbW : Database := ⟨[pW], [⟨"qr1", false⟩]⟩

/-- Failure fixture: every store call succeeds. -/
def failW : Failures := ⟨false, false, false⟩

/-- Notification fixture: a well-formed settlement notification whose
signature matches the digest of `envW`. -/
def nW : Notification :=
  ⟨some (.str "settlement"), some (.str "tx1"), some (.str "ord1"), some (.str "10000"),
   some (.str "sig"), none, some (.str "200"), some (.str "qris")⟩

/-- Notification fixture with a mismatched signature. -/
def nBadSig : Notification := { nW with signature_key := some (.str "wrong") }

/-- Notification fixture with the order id absent. -/
def nMiss : Notification := { nW with order_id := none }

/-- Notification fixture with an empty-string gross amount. -/
def nEmpty : Notification := { nW with gross_amount := some (.str "") }

/-- Notification fixture: capture with fraud status accept. -/
def nCap : Notification :=
  { nW with transaction_status := some (.str "capture"),
            fraud_status := some (.str "accept") }

/-- Notification fixture: capture with a non-accept fraud status. -/
def nCapBad : Notification :=
  { nW with transaction_status := some (.str "capture"),
            fraud_status := some (.str "challenge") }

/-- Notification fixture: a cancel notification. -/
def nCancel : Notification := { nW with transaction_status := some (.str "cancel") }

/-- Notification fixture: a pending notification. -/
def nPend : Notification := { nW with transaction_status := some (.str "pending") }

/-- Notification fixture: settlement for an order with no payment row. -/
def nNF : Notification := { nW with order_id := some (.str "ord2") }

/-!  Helper lemmas about the store operations and the premium-flag
monotonicity predicate. -/

/-- With all four required fields truthy, the missing-field guard of the
handler is false. -/
theorem guard_eq_false {n : Notification} (hr : hasRequired n = true) :
    (!(truthyOpt n.order_id) || !(truthyOpt n.status_code)
      || !(truthyOpt n.gross_amount) || !(truthyOpt n.signature_key)) = false := by
  simp only [hasRequired, Bool.and_eq_true] at hr
  simp [hr.1.1.1, hr.1.1.2, hr.1.2, hr.2]

/-- The quiz-result update leaves the payments table untouched. -/
theorem setQuizPremium_payments (db : Database) (qid : String) :
    (setQuizPremium db qid).payments = db.payments := rfl

/-- The payment-status update leaves the quiz-result table untouched. -/
theorem setPaymentStatus_quiz (db : Database) (tid st : String) (d : Option String) :
    (setPaymentStatus db tid st d).quiz_results = db.quiz_results := rfl

/-- After `setQuizPremium db qid`, every row with id `qid` has the
premium flag set. -/
theorem mem_setQuizPremium {db : Database} {qid : String} {q : QuizResult}
    (hq : q ∈ (setQuizPremium db qid).quiz_results) (hid : q.id = qid) :
    q.is_premium = true := by
  simp only [setQuizPremium, List.mem_map] at hq
  obtain ⟨q0, _, rfl⟩ := hq
  by_cases h : q0.id = qid
  · simp [h]
  · rw [if_neg (by simpa using h)] at hid ⊢
    exact absurd hid h

/-- After `setPaymentStatus db tid st d`, every row with transaction id
`tid` has status `st`, and the date stamp when one was supplied. -/
theorem mem_setPaymentStatus {db : Database} {tid st : String} {d : Option String}
    {pm : Payment} (h : pm ∈ (setPaymentStatus db tid st d).payments)
    (hid : pm.transaction_id = tid) :
    pm.status = st ∧ ∀ dd, d = some dd → pm.payment_date = some dd := by
  simp only [setPaymentStatus, List.mem_map] at h
  obtain ⟨p0, _, rfl⟩ := h
  by_cases hm : p0.transaction_id = tid
  · cases d with
    | none => simp [hm]
    | some dd => simp [hm]
  · rw [if_neg (by simpa using hm)] at hid ⊢
    exact absurd hid hm

/-- Any row evolves admissibly into itself. -/
theorem quizEvolves_refl (q : QuizResult) : quizEvolves q q = true := by
  simp [quizEvolves]

/-- Zipping a quiz-result table with itself satisfies the row predicate. -/
theorem all_zip_self (l : List QuizResult) :
    ((l.zip l).all fun x => quizEvolves x.1 x.2) = true := by
  induction l with
  | nil => rfl
  | cons a l ih =>
    simp only [List.zip_cons_cons, List.all_cons, quizEvolves_refl a, ih, Bool.and_self]

/-- An unchanged database is premium-monotone. -/
theorem premiumMonotone_refl (db : Database) : premiumMonotone db db = true := by
  simp [premiumMonotone, all_zip_self]

/-- A rowwise-admissible map keeps the zipped table predicate true. -/
theorem zip_map_all {l : List QuizResult} {f : QuizResult → QuizResult}
    (hf : ∀ q, quizEvolves q (f q) = true) :
    ((l.zip (l.map f)).all fun x => quizEvolves x.1 x.2) = true := by
  induction l with
  | nil => rfl
  | cons a l ih =>
    simp only [List.map_cons, List.zip_cons_cons, List.all_cons, hf a, ih, Bool.and_self]

/-- Setting the premium flag is premium-monotone. -/
theorem premiumMonotone_setQuizPremium (db : Database) (qid : String) :
    premiumMonotone db (setQuizPremium db qid) = true := by
  simp only [premiumMonotone, setQuizPremium, Bool.and_eq_true, beq_iff_eq]
  constructor
  · simp
  · apply zip_map_all
    intro q
    by_cases h : q.id = qid <;> simp [h, quizEvolves]

/-- A payment-status update is premium-monotone. -/
theorem premiumMonotone_setPaymentStatus (db : Database) (tid st : String)
    (d : Option String) : premiumMonotone db (setPaymentStatus db tid st d) = true :=
  premiumMonotone_refl db

/-- The successful-path double update is premium-monotone. -/
theorem premiumMonotone_success (db : Database) (qid tid st : String) (d : Option String) :
    premiumMonotone db (setPaymentStatus (setQuizPremium db qid) tid st d) = true :=
  premiumMonotone_setQuizPremium db qid

/-- Two verified notifications that only differ in fields outside the
four required ones and are both classified successful are processed
identically. -/
theorem process_successful_eq (env : Env) (fail : Failures) (db : Database)
    (m n : Notification)
    (ho : m.order_id = n.order_id) (hc : m.status_code = n.status_code)
    (hg : m.gross_amount = n.gross_amount) (hk : m.signature_key = n.signature_key)
    (h1 : isSuccessful m.transaction_status m.fraud_status = true)
    (h2 : isSuccessful n.transaction_status n.fraud_status = true) :
    processNotification env fail db m = processNotification env fail db n := by
  have e2 : verifyOf env m = verifyOf env n := by
    unfold verifyOf reqOrderId reqStatusCode reqGrossAmount reqSignatureKey
    rw [ho, hc, hg, hk]
  have e3 : oidOf m = oidOf n := by
    unfold oidOf reqOrderId
    rw [ho]
  have e4 : vEventOf env m = vEventOf env n := by
    unfold vEventOf reqOrderId reqStatusCode reqGrossAmount
    rw [ho, hc, hg]
  unfold processNotification
  rw [ho, hc, hg, hk, e2, e3, e4, h1, h2]
  simp

/-- C1: a settlement notification with all required fields, a valid
signature and a unique matching payment record, processed with every
store call succeeding, yields the accepted outcome, sets the premium
flag of the referenced quiz result to true, then sets the payment status
to completed with the completion timestamp, in that call order. -/
theorem C1_settlement_success (env : Env) (fail : Failures) (db : Database)
    (n : Notification) (p : Payment)
    (hr : hasRequired n = true)
    (hs : n.transaction_status = some (.str "settlement"))
    (hv : verifyOf env n = true)
    (hp : findPayment db (oidOf n) = some p)
    (hf1 : fail.findPayment = false)
    (hf2 : fail.quizUpdate = false)
    (hf3 : fail.paymentUpdate = false) :
    (processNotification env fail db n).outcome = .accepted
    ∧ (∀ q ∈ (processNotification env fail db n).db.quiz_results,
        q.id = p.quiz_result_id → q.is_premium = true)
    ∧ (∀ pm ∈ (processNotification env fail db n).db.payments,
        pm.transaction_id = oidOf n →
          pm.status = "completed" ∧ pm.payment_date = some env.now)
    ∧ (processNotification env fail db n).events
        = [vEventOf env n, .dbFindPayment (oidOf n),
           .dbUpdateQuizPremium p.quiz_result_id true,
           .dbUpdatePaymentStatus (oidOf n) "completed" true] := by
  have hsucc : isSuccessful n.transaction_status n.fraud_status = true := by
    simp [isSuccessful, hs, strictEqStrOpt, strictEqStr]
  have hred : processNotification env fail db n
      = ⟨.accepted,
          setPaymentStatus (setQuizPremium db p.quiz_result_id) (oidOf n) "completed"
            (some env.now),
          [vEventOf env n, .dbFindPayment (oidOf n),
           .dbUpdateQuizPremium p.quiz_result_id true,
           .dbUpdatePaymentStatus (oidOf n) "completed" true]⟩ := by
    unfold processNotification
    rw [guard_eq_false hr, hv, hsucc, hf1, hf2, hf3, hp]
    simp
  rw [hred]
  refine ⟨rfl, ?_, ?_, rfl⟩
  · intro q hq hid
    exact mem_setQuizPremium hq hid
  · intro pm hpm hid
    obtain ⟨h1, h2⟩ := mem_setPaymentStatus hpm hid
    exact ⟨h1, h2 env.now rfl⟩

/-- Witness for C1 at the concrete fixtures. -/
theorem C1_witness :
    (processNotification envW failW dbW nW).outcome = .accepted
    ∧ (∀ q ∈ (processNotification envW failW dbW nW).db.quiz_results,
        q.id = pW.quiz_result_id → q.is_premium = true)
    ∧ (∀ pm ∈ (processNotification envW failW dbW nW).db.payments,
        pm.transaction_id = oidOf nW →
          pm.status = "completed" ∧ pm.payment_date = some envW.now)
    ∧ (processNotification envW failW dbW nW).events
        = [vEventOf envW nW, .dbFindPayment (oidOf nW),
           .dbUpdateQuizPremium pW.quiz_result_id true,
           .dbUpdatePaymentStatus (oidOf nW) "completed" true] :=
  C1_settlement_success envW failW dbW nW pW rfl rfl rfl rfl rfl rfl rfl

/-- C2: on string inputs the signature verifier returns true exactly when
the received signature equals the digest of the concatenation of order
id, status code, gross amount and the secret key; verifying against that
digest succeeds, and a hashing error yields false instead of an
exception. -/
theorem C2_signature_verifier (hash : String → Except String String)
    (key now id code amt sig : String) :
    (verifySignature ⟨hash, key, now⟩ (.str id) (.str code) (.str amt) (.str sig) = true
      ↔ hash (id ++ code ++ amt ++ key) = .ok sig)
    ∧ (∀ d, hash (id ++ code ++ amt ++ key) = .ok d →
        verifySignature ⟨hash, key, now⟩ (.str id) (.str code) (.str amt) (.str d) = true)
    ∧ (∀ e, hash (id ++ code ++ amt ++ key) = .error e →
        verifySignature ⟨hash, key, now⟩ (.str id) (.str code) (.str amt) (.str sig)
          = false) := by
  have hin : sigInput ⟨hash, key, now⟩ (.str id) (.str code) (.str amt)
      = id ++ code ++ amt ++ key := by
    simp [sigInput, jsAdd, jsToString, String.append_assoc]
  refine ⟨?_, ?_, ?_⟩
  · unfold verifySignature
    dsimp only
    rw [hin]
    cases h : hash (id ++ code ++ amt ++ key) with
    | ok d =>
      simp only [strictEqStr, beq_iff_eq, Except.ok.injEq]
      exact eq_comm
    | error e => simp
  · intro d hd
    unfold verifySignature
    dsimp only
    rw [hin, hd]
    simp [strictEqStr]
  · intro e he
    unfold verifySignature
    dsimp only
    rw [hin, he]

/-- Witness for C2 with a constant digest and an erroring hash. -/
theorem C2_witness :
    (verifySignature ⟨fun _ => Except.ok "sig", "key", "t"⟩
        (.str "ord1") (.str "200") (.str "10000") (.str "sig") = true
      ↔ (fun _ => (Except.ok "sig" : Except String String))
          ("ord1" ++ "200" ++ "10000" ++ "key") = .ok "sig")
    ∧ verifySignature ⟨fun _ => Except.ok "sig", "key", "t"⟩
        (.str "ord1") (.str "200") (.str "10000") (.str "sig") = true
    ∧ verifySignature ⟨fun _ => Except.error "boom", "key", "t"⟩
        (.str "ord1") (.str "200") (.str "10000") (.str "sig") = false :=
  ⟨(C2_signature_verifier (fun _ => Except.ok "sig") "key" "t" "ord1" "200" "10000" "sig").1,
   (C2_signature_verifier (fun _ => Except.ok "sig") "key" "t" "ord1" "200" "10000" "sig").2.1
      "sig" rfl,
   (C2_signature_verifier (fun _ => Except.error "boom") "key" "t" "ord1" "200" "10000" "sig").2.2
      "boom" rfl⟩

/-- C3: on every run, the quiz-result table evolves premium-monotonically
(the flag only goes from false to true and never reverts), and a
quiz-premium write occurs only with value true, only on the successful
classification, after a passed signature check and a successful unique
payment lookup. -/
theorem C3_premium_invariant (env : Env) (fail : Failures) (db : Database)
    (n : Notification) :
    premiumMonotone db (processNotification env fail db n).db = true
    ∧ ∀ qid b,
        Event.dbUpdateQuizPremium qid b ∈ (processNotification env fail db n).events →
          b = true
          ∧ isSuccessful n.transaction_status n.fraud_status = true
          ∧ verifyOf env n = true
          ∧ fail.findPayment = false
          ∧ ∃ p, findPayment db (oidOf n) = some p ∧ p.quiz_result_id = qid := by
  refine ⟨?_, ?_⟩
  · unfold processNotification
    repeat' split
    all_goals first
      | exact premiumMonotone_refl db
      | exact premiumMonotone_setQuizPremium db _
  · intro qid b hmem
    unfold processNotification at hmem
    split at hmem
    · simp at hmem
    · split at hmem
      · simp [vEventOf] at hmem
      · rename_i hguard hverify
        have hv : verifyOf env n = true := by
          revert hverify
          cases verifyOf env n <;> simp
        split at hmem
        · rename_i hsucc
          split at hmem
          · simp [vEventOf] at hmem
          · rename_i p hsc
            have hfp : fail.findPayment = false ∧ findPayment db (oidOf n) = some p := by
              cases hb : fail.findPayment
              · rw [hb] at hsc
                simp at hsc
                exact ⟨rfl, hsc⟩
              · rw [hb] at hsc
                simp at hsc
            split at hmem
            · simp [vEventOf] at hmem
              exact ⟨hmem.2, hsucc, hv, hfp.1, p, hfp.2, hmem.1.symm⟩
            · split at hmem
              · simp [vEventOf] at hmem
                exact ⟨hmem.2, hsucc, hv, hfp.1, p, hfp.2, hmem.1.symm⟩
              · simp [vEventOf] at hmem
                exact ⟨hmem.2, hsucc, hv, hfp.1, p, hfp.2, hmem.1.symm⟩
        · split at hmem
          · split at hmem <;> simp [vEventOf] at hmem
          · split at hmem
            · split at hmem <;> simp [vEventOf] at hmem
            · simp [vEventOf] at hmem

/-- Witness for C3 at the concrete fixtures, instantiating the event
implication at the quiz-premium write the successful run performs. -/
theorem C3_witness :
    premiumMonotone dbW (processNotification envW failW dbW nW).db = true
    ∧ (true = true
      ∧ isSuccessful nW.transaction_status nW.fraud_status = true
      ∧ verifyOf envW nW = true
      ∧ failW.findPayment = false
      ∧ ∃ p, findPayment dbW (oidOf nW) = some p ∧ p.quiz_result_id = "qr1") :=
  ⟨(C3_premium_invariant envW failW dbW nW).1,
   (C3_premium_invariant envW failW dbW nW).2 "qr1" true (by decide)⟩

/-- C4: a notification missing any of the four required fields is
rejected as a bad request with no external call at all — no database
access and no signature verification. -/
theorem C4_missing_required_field (env : Env) (fail : Failures) (db : Database)
    (n : Notification)
    (h : n.order_id = none ∨ n.status_code = none ∨ n.gross_amount = none
      ∨ n.signature_key = none) :
    processNotification env fail db n = ⟨.bad_request, db, []⟩ := by
  unfold processNotification
  rcases h with h | h | h | h <;> simp [h, truthyOpt]

/-- Witness for C4: the fixture with no order id. -/
theorem C4_witness :
    processNotification envW failW dbW nMiss = ⟨.bad_request, dbW, []⟩ :=
  C4_missing_required_field envW failW dbW nMiss (Or.inl rfl)

/-- C5: with all required fields present but a failing signature check,
the handler returns the invalid-signature outcome, leaves the database
untouched and makes no database call (the trace holds only the
verification), whatever the transaction status. -/
theorem C5_invalid_signature (env : Env) (fail : Failures) (db : Database)
    (n : Notification)
    (hr : hasRequired n = true) (hv : verifyOf env n = false) :
    processNotification env fail db n = ⟨.invalid_signature, db, [vEventOf env n]⟩ := by
  unfold processNotification
  rw [guard_eq_false hr, hv]
  simp

/-- Witness for C5: the fixture with a mismatched signature. -/
theorem C5_witness :
    processNotification envW failW dbW nBadSig
      = ⟨.invalid_signature, dbW, [vEventOf envW nBadSig]⟩ :=
  C5_invalid_signature envW failW dbW nBadSig rfl rfl

/-- C6: a capture notification with fraud status accept is processed
exactly like the same notification with status settlement; a verified
capture notification with any other fraud status falls in the
unrecognized bucket: it is acknowledged as accepted with no database
call and no state change. -/
theorem C6_capture_equiv_settlement (env : Env) (fail : Failures) (db : Database)
    (n : Notification) :
    (n.transaction_status = some (.str "capture") →
      n.fraud_status = some (.str "accept") →
      processNotification env fail db n
        = processNotification env fail db
            { n with transaction_status := some (.str "settlement") })
    ∧ (hasRequired n = true → verifyOf env n = true →
      n.transaction_status = some (.str "capture") →
      strictEqStrOpt n.fraud_status "accept" = false →
      processNotification env fail db n = ⟨.accepted, db, [vEventOf env n]⟩) := by
  constructor
  · intro hts hfs
    exact process_successful_eq env fail db n _ rfl rfl rfl rfl
      (by simp [isSuccessful, hts, hfs, strictEqStrOpt, strictEqStr])
      (by simp [isSuccessful, strictEqStrOpt, strictEqStr])
  · intro hr hv hts hfs
    have hns : isSuccessful n.transaction_status n.fraud_status = false := by
      unfold isSuccessful
      rw [hts, hfs]
      decide
    unfold processNotification
    rw [guard_eq_false hr, hv, hns, hts]
    simp [strictEqStrOpt, strictEqStr]

/-- Witness for C6 at the capture fixtures. -/
theorem C6_witness :
    processNotification envW failW dbW nCap
      = processNotification envW failW dbW
          { nCap with transaction_status := some (.str "settlement") }
    ∧ processNotification envW failW dbW nCapBad
      = ⟨.accepted, dbW, [vEventOf envW nCapBad]⟩ :=
  ⟨(C6_capture_equiv_settlement envW failW dbW nCap).1 rfl rfl,
   (C6_capture_equiv_settlement envW failW dbW nCapBad).2 rfl rfl rfl rfl⟩

/-- C7: verified cancel, deny or expire notifications set the matching
payment status to failed, pending ones set it to pending; the
quiz-result table is never touched on these paths, and even when the
update call fails the outcome is still accepted. -/
theorem C7_failed_and_pending (env : Env) (fail : Failures) (db : Database)
    (n : Notification)
    (hr : hasRequired n = true)
    (hv : verifyOf env n = true) :
    ((n.transaction_status = some (.str "cancel")
        ∨ n.transaction_status = some (.str "deny")
        ∨ n.transaction_status = some (.str "expire")) →
      (processNotification env fail db n).outcome = .accepted
      ∧ (processNotification env fail db n).db.quiz_results = db.quiz_results
      ∧ (fail.paymentUpdate = true → (processNotification env fail db n).db = db)
      ∧ (fail.paymentUpdate = false →
          ∀ pm ∈ (processNotification env fail db n).db.payments,
            pm.transaction_id = oidOf n → pm.status = "failed"))
    ∧ (n.transaction_status = some (.str "pending") →
      (processNotification env fail db n).outcome = .accepted
      ∧ (processNotification env fail db n).db.quiz_results = db.quiz_results
      ∧ (fail.paymentUpdate = true → (processNotification env fail db n).db = db)
      ∧ (fail.paymentUpdate = false →
          ∀ pm ∈ (processNotification env fail db n).db.payments,
            pm.transaction_id = oidOf n → pm.status = "pending")) := by
  constructor
  · intro hts
    have hred : processNotification env fail db n
        = if fail.paymentUpdate then
            ⟨.accepted, db, [vEventOf env n, .dbUpdatePaymentStatus (oidOf n) "failed" false]⟩
          else
            ⟨.accepted, setPaymentStatus db (oidOf n) "failed" none,
              [vEventOf env n, .dbUpdatePaymentStatus (oidOf n) "failed" false]⟩ := by
      unfold processNotification
      rw [guard_eq_false hr, hv]
      rcases hts with hs | hs | hs <;>
        simp [isSuccessful, hs, strictEqStrOpt, strictEqStr]
    cases hpu : fail.paymentUpdate with
    | true =>
      rw [hpu] at hred
      simp only [if_true] at hred
      rw [hred]
      exact ⟨rfl, rfl, fun _ => rfl, fun h => absurd h (by simp)⟩
    | false =>
      rw [hpu] at hred
      simp only [Bool.false_eq_true, if_false] at hred
      rw [hred]
      refine ⟨rfl, rfl, fun h => absurd h (by simp), ?_⟩
      intro _ pm hpm hid
      exact (mem_setPaymentStatus hpm hid).1
  · intro hs
    have hred : processNotification env fail db n
        = if fail.paymentUpdate then
            ⟨.accepted, db, [vEventOf env n, .dbUpdatePaymentStatus (oidOf n) "pending" false]⟩
          else
            ⟨.accepted, setPaymentStatus db (oidOf n) "pending" none,
              [vEventOf env n, .dbUpdatePaymentStatus (oidOf n) "pending" false]⟩ := by
      unfold processNotification
      rw [guard_eq_false hr, hv]
      simp [isSuccessful, hs, strictEqStrOpt, strictEqStr]
    cases hpu : fail.paymentUpdate with
    | true =>
      rw [hpu] at hred
      simp only [if_true] at hred
      rw [hred]
      exact ⟨rfl, rfl, fun _ => rfl, fun h => absurd h (by simp)⟩
    | false =>
      rw [hpu] at hred
      simp only [Bool.false_eq_true, if_false] at hred
      rw [hred]
      refine ⟨rfl, rfl, fun h => absurd h (by simp), ?_⟩
      intro _ pm hpm hid
      exact (mem_setPaymentStatus hpm hid).1

/-- Witness for C7 at the cancel and pending fixtures, instantiated at
the updated payment rows. -/
theorem C7_witness :
    (processNotification envW failW dbW nCancel).outcome = .accepted
    ∧ (processNotification envW failW dbW nCancel).db.quiz_results = dbW.quiz_results
    ∧ (⟨"ord1", "qr1", "u1", "failed", none⟩ : Payment).status = "failed"
    ∧ (processNotification envW failW dbW nPend).outcome = .accepted
    ∧ (⟨"ord1", "qr1", "u1", "pending", none⟩ : Payment).status = "pending" :=
  ⟨((C7_failed_and_pending envW failW dbW nCancel rfl rfl).1 (Or.inl rfl)).1,
   ((C7_failed_and_pending envW failW dbW nCancel rfl rfl).1 (Or.inl rfl)).2.1,
   ((C7_failed_and_pending envW failW dbW nCancel rfl rfl).1 (Or.inl rfl)).2.2.2 rfl
      ⟨"ord1", "qr1", "u1", "failed", none⟩ (by decide) rfl,
   ((C7_failed_and_pending envW failW dbW nPend rfl rfl).2 rfl).1,
   ((C7_failed_and_pending envW failW dbW nPend rfl rfl).2 rfl).2.2.2 rfl
      ⟨"ord1", "qr1", "u1", "pending", none⟩ (by decide) rfl⟩

/-- C8: a verified settlement notification whose order id matches no
payment row yields the not-found outcome, the database is unchanged and
the only database call is the failed lookup. -/
theorem C8_settlement_not_found (env : Env) (fail : Failures) (db : Database)
    (n : Notification)
    (hr : hasRequired n = true)
    (hs : n.transaction_status = some (.str "settlement"))
    (hv : verifyOf env n = true)
    (hnone : db.payments.filter (fun p => p.transaction_id == oidOf n) = []) :
    processNotification env fail db n
      = ⟨.not_found, db, [vEventOf env n, .dbFindPayment (oidOf n)]⟩ := by
  have hsucc : isSuccessful n.transaction_status n.fraud_status = true := by
    simp [isSuccessful, hs, strictEqStrOpt, strictEqStr]
  have hfp : findPayment db (oidOf n) = none := by
    unfold findPayment
    rw [hnone]
  unfold processNotification
  rw [guard_eq_false hr, hv, hsucc, hfp]
  simp [ite_self]

/-- Witness for C8: settlement for an order with no payment row. -/
theorem C8_witness :
    processNotification envW failW dbW nNF
      = ⟨.not_found, dbW, [vEventOf envW nNF, .dbFindPayment (oidOf nNF)]⟩ :=
  C8_settlement_not_found envW failW dbW nNF rfl rfl rfl rfl

/-- C9: on the successful path with a found payment, a failing
quiz-result update yields the update-failed outcome with the database
unchanged and no payment-status call; a failing payment-status update
after a successful premium update still yields accepted, with the
premium applied and the payments table untouched. -/
theorem C9_update_failures (env : Env) (fail : Failures) (db : Database)
    (n : Notification) (p : Payment)
    (hr : hasRequired n = true)
    (hv : verifyOf env n = true)
    (hsucc : isSuccessful n.transaction_status n.fraud_status = true)
    (hf1 : fail.findPayment = false)
    (hp : findPayment db (oidOf n) = some p) :
    (fail.quizUpdate = true →
      processNotification env fail db n
        = ⟨.update_failed, db,
            [vEventOf env n, .dbFindPayment (oidOf n),
             .dbUpdateQuizPremium p.quiz_result_id true]⟩)
    ∧ (fail.quizUpdate = false → fail.paymentUpdate = true →
      (processNotification env fail db n).outcome = .accepted
      ∧ (processNotification env fail db n).db = setQuizPremium db p.quiz_result_id
      ∧ (processNotification env fail db n).db.payments = db.payments) := by
  constructor
  · intro hq
    unfold processNotification
    rw [guard_eq_false hr, hv, hsucc, hf1, hp, hq]
    simp
  · intro hq hpu
    have hred : processNotification env fail db n
        = ⟨.accepted, setQuizPremium db p.quiz_result_id,
            [vEventOf env n, .dbFindPayment (oidOf n),
             .dbUpdateQuizPremium p.quiz_result_id true,
             .dbUpdatePaymentStatus (oidOf n) "completed" true]⟩ := by
      unfold processNotification
      rw [guard_eq_false hr, hv, hsucc, hf1, hp, hq, hpu]
      simp
    rw [hred]
    exact ⟨rfl, rfl, rfl⟩

/-- Witness for C9 with an injected quiz-update failure and an injected
payment-update failure. -/
theorem C9_witness :
    processNotification envW ⟨false, true, false⟩ dbW nW
      = ⟨.update_failed, dbW,
          [vEventOf envW nW, .dbFindPayment (oidOf nW),
           .dbUpdateQuizPremium pW.quiz_result_id true]⟩
    ∧ (processNotification envW ⟨false, false, true⟩ dbW nW).outcome = .accepted
    ∧ (processNotification envW ⟨false, false, true⟩ dbW nW).db
        = setQuizPremium dbW pW.quiz_result_id
    ∧ (processNotification envW ⟨false, false, true⟩ dbW nW).db.payments = dbW.payments :=
  ⟨(C9_update_failures envW ⟨false, true, false⟩ dbW nW pW rfl rfl rfl rfl rfl).1 rfl,
   ((C9_update_failures envW ⟨false, false, true⟩ dbW nW pW rfl rfl rfl rfl rfl).2 rfl rfl).1,
   ((C9_update_failures envW ⟨false, false, true⟩ dbW nW pW rfl rfl rfl rfl rfl).2 rfl rfl).2.1,
   ((C9_update_failures envW ⟨false, false, true⟩ dbW nW pW rfl rfl rfl rfl rfl).2 rfl rfl).2.2⟩

/-- C10: a required field that is present but falsy — empty string, the
number zero, false, or null — is treated exactly like a missing one: bad
request, no external call. -/
theorem C10_falsy_required_field (env : Env) (fail : Failures) (db : Database)
    (n : Notification) (v : JsValue)
    (hv : v = .str "" ∨ v = .num 0 ∨ v = .boolean false ∨ v = .null)
    (hf : n.order_id = some v ∨ n.status_code = some v ∨ n.gross_amount = some v
      ∨ n.signature_key = some v) :
    processNotification env fail db n = ⟨.bad_request, db, []⟩ := by
  have ht : truthy v = false := by rcases hv with rfl | rfl | rfl | rfl <;> rfl
  unfold processNotification
  rcases hf with h | h | h | h <;> simp [h, truthyOpt, ht]

/-- Witness for C10: the fixture with an empty-string gross amount. -/
theorem C10_witness :
    processNotification envW failW dbW nEmpty = ⟨.bad_request, dbW, []⟩ :=
  C10_falsy_required_field envW failW dbW nEmpty (.str "")
    (Or.inl rfl) (Or.inr (Or.inr (Or.inl rfl)))

end PaymentNotification
